import Mathlib

/-!
Verification development for the HelloHealth frontend
(`src/Frontend/script.js`), a symptom-checker UI.

The script is shallowly embedded: DOM mutations performed by the
dispatcher `fetchSymptoms` and the click handlers are modelled as
explicit lists of UI operations (`UIOp`), applied to an explicit
`UIState`; the renderer `displayResults` becomes a pure function from
the parsed response to the HTML string it assigns to
`resultsList.innerHTML`; the tilt math of `handleMove` is modelled
over the real numbers; the periodic hero animation is modelled by the
set of instants at which it adds its CSS class.

JavaScript-specific semantics kept by the embedding:

* `String.prototype.trim` is modelled by `jsTrim` (strip
  leading/trailing whitespace; the concrete inputs used below contain
  only ASCII spaces, where the models agree with JavaScript).
* `Math.round` on a (non-NaN) number is `⌊x + 1/2⌋` (round half
  toward positive infinity); numbers are modelled as rationals.
* A missing object field reads as `undefined`; interpolating
  `undefined` into a template literal yields the text `"undefined"`,
  and `Math.round(undefined * 100)` interpolates as `"NaN"`.
-/

set_option autoImplicit false
set_option maxRecDepth 40000

namespace HelloHealth

/-- A parsed JSON response body, as consumed by `displayResults`
(script.js lines 110-113 and 153-172).  Each of the three expected
fields may be absent, in which case the corresponding property read
yields `undefined`; the code performs no validation before rendering. -/
structure JsonData where
  diagnosis : Option String
  confidence : Option ℚ
  recommendation : Option String
deriving DecidableEq, Repr

/-- Interpolating a possibly-`undefined` string property into a
template literal: `undefined` renders as the text `"undefined"`. -/
def jsInterp : Option String → String
  | none => "undefined"
  | some s => s

/-- JavaScript `Math.round` on a rational: round half toward positive
infinity. -/
def mathRound (q : ℚ) : ℤ := ⌊q + 1 / 2⌋

/-- The text produced by interpolating
`Math.round(data.confidence * 100)` (script.js line 161): when
`confidence` is absent, `undefined * 100` is `NaN` and `Math.round`
propagates it, rendering as `"NaN"`. -/
def confidenceText : Option ℚ → String
  | none => "NaN"
  | some c => toString (mathRound (c * 100))

/-- The first `<div>` of the template assigned by `displayResults`
(script.js lines 156-162): the diagnosis box with the condition name
and the confidence percentage.  HTML comments are part of the template
literal in the source and are reproduced here. -/
def diagnosisBlock (data : JsonData) : String :=
  "<!\x2d\x2d Diagnosis Information Box \x2d\x2d>\n"
  ++ "            <div class=\"bg-blue-100 border border-blue-400 text-blue-800 px-4 py-3 rounded-md mb-4\">\n"
  ++ "                <!\x2d\x2d Show the AI\x27s diagnosis for the symptoms \x2d\x2d>\n"
  ++ "                <p class=\"font-bold\">Possible Diagnosis: " ++ jsInterp data.diagnosis ++ "</p>\n"
  ++ "                <!\x2d\x2d Show confidence as percentage (0-100%) \x2d\x2d>\n"
  ++ "                <p class=\"text-sm\">Confidence: " ++ confidenceText data.confidence ++ "%</p>\n"
  ++ "            </div>"

/-- The second `<div>` of the template assigned by `displayResults`
(script.js lines 164-170): the recommendation box. -/
def recommendationBlock (data : JsonData) : String :=
  "<!\x2d\x2d Recommendations Information Box \x2d\x2d>\n"
  ++ "            <div class=\"bg-green-100 border border-green-400 text-green-800 px-4 py-3 rounded-md\">\n"
  ++ "                <!\x2d\x2d Header for next steps \x2d\x2d>\n"
  ++ "                <p class=\"font-bold\">Next Steps:</p>\n"
  ++ "                <!\x2d\x2d Show the recommended action/treatment \x2d\x2d>\n"
  ++ "                <p>" ++ jsInterp data.recommendation ++ "</p>\n"
  ++ "            </div>"

/-- `displayResults(data)` (script.js lines 153-172): the HTML string
assigned to `resultsList.innerHTML` — the whole template literal,
including its surrounding indentation. -/
def displayResults (data : JsonData) : String :=
  "\n            " ++ diagnosisBlock data
  ++ "\n            \n            " ++ recommendationBlock data
  ++ "\n        "

/-- The loading placeholder assigned before the request
(script.js line 72). -/
def searchingHTML : String :=
  "<div class=\"text-center text-gray-500\">Searching...</div>"

/-- The fixed inline error markup assigned on any caught failure
(script.js line 125). -/
def errorHTML : String :=
  "<div class=\"bg-red-100 text-red-700 p-4 rounded-lg\">An error occurred. Please try again later.</div>"

/-- The hardcoded backend endpoint (script.js line 79). -/
def checkSymptomsURL : String := "http://127.0.0.1:8000/check-symptoms"

/-- One outbound HTTP request as assembled by `fetchSymptoms`
(script.js lines 79-90).  The body `JSON.stringify({symptoms})` is an
object with the single field `symptoms`; the request is modelled by
that field's value together with the URL, method and content type. -/
structure Request where
  url : String
  method : String
  contentType : String
  symptoms : String
deriving DecidableEq, Repr

/-- The request `fetchSymptoms` sends for a given symptom string. -/
def mkRequest (symptoms : String) : Request :=
  { url := checkSymptomsURL
    method := "POST"
    contentType := "application/json"
    symptoms := symptoms }

/-- The environment's answer to the single `fetch` call: either the
promise rejects (network failure), or a response arrives with an HTTP
status and a body that either parses as JSON (`some data`) or does not
(`none`, making `response.json()` reject). -/
inductive FetchResult where
  | networkFailure
  | response (status : ℕ) (body : Option JsonData)
deriving DecidableEq, Repr

/-- `response.ok`: true exactly for statuses 200-299
(script.js lines 92-99). -/
def statusOk (status : ℕ) : Bool := 200 ≤ status && status ≤ 299

/-- Whether the `catch` branch of `fetchSymptoms` runs for the given
fetch outcome: network rejection, non-2xx status (the explicit
`throw`), or a body that fails JSON parsing. -/
def failed : FetchResult → Bool
  | .networkFailure => true
  | .response status body => !statusOk status || body.isNone

/-- One observable DOM effect of the script, in the order performed. -/
inductive UIOp where
  | addHiddenClass
  | removeHiddenClass
  | setResultsHTML (html : String)
  | sendRequest (req : Request)
  | logError
deriving DecidableEq, Repr

/-- `fetchSymptoms(symptoms)` (script.js lines 67-133) as the ordered
list of DOM effects it performs, given how the environment answers the
fetch: hide the container, show the placeholder, send the request;
then either render the parsed data or log and show the error markup;
finally (in the `finally` block) reveal the container. -/
def fetchSymptoms (symptoms : String) (result : FetchResult) : List UIOp :=
  [UIOp.addHiddenClass,
   UIOp.setResultsHTML searchingHTML,
   UIOp.sendRequest (mkRequest symptoms)]
  ++ (match result with
      | .networkFailure => [UIOp.logError, UIOp.setResultsHTML errorHTML]
      | .response status body =>
        if statusOk status then
          match body with
          | none => [UIOp.logError, UIOp.setResultsHTML errorHTML]
          | some data => [UIOp.setResultsHTML (displayResults data)]
        else [UIOp.logError, UIOp.setResultsHTML errorHTML])
  ++ [UIOp.removeHiddenClass]

/-- The visible state touched by the dispatcher: whether
`resultContainer` carries the `hidden` class, and the current
`resultsList.innerHTML`. -/
structure UIState where
  containerHidden : Bool
  resultsHTML : String
deriving DecidableEq, Repr

/-- Apply one DOM effect to the visible state.  `sendRequest` and
`logError` do not change it. -/
def applyOp (st : UIState) : UIOp → UIState
  | .addHiddenClass => { st with containerHidden := true }
  | .removeHiddenClass => { st with containerHidden := false }
  | .setResultsHTML html => { st with resultsHTML := html }
  | .sendRequest _ => st
  | .logError => st

/-- Apply a list of DOM effects left to right. -/
def applyOps (st : UIState) (ops : List UIOp) : UIState :=
  ops.foldl applyOp st

/-- The requests issued within a list of DOM effects. -/
def requestsOf (ops : List UIOp) : List Request :=
  ops.filterMap fun op =>
    match op with
    | .sendRequest r => some r
    | _ => none

/-- JavaScript `String.prototype.trim`: strip whitespace from both
ends of the string (modelled structurally over the character list so
that it evaluates in the kernel; JavaScript additionally strips some
Unicode space characters, which none of the inputs considered here
contain). -/
def jsTrim (s : String) : String :=
  ⟨((s.data.dropWhile Char.isWhitespace).reverse.dropWhile Char.isWhitespace).reverse⟩

/-- The search-button click handler (script.js lines 182-190): trim
the input field's value and dispatch only when non-empty (JavaScript
truthiness of a string: non-empty). -/
def searchBtnClick (inputValue : String) (result : FetchResult) : List UIOp :=
  let symptoms := jsTrim inputValue
  if symptoms ≠ "" then fetchSymptoms symptoms result else []

/-- A symptom-tag click handler (script.js lines 205-216): take the
tag's `textContent` as-is, write it into the input field, and dispatch
immediately.  Returns the new input-field value together with the DOM
effects.  Note: no trim and no emptiness guard. -/
def tagClick (textContent : String) (result : FetchResult) : String × List UIOp :=
  (textContent, fetchSymptoms textContent result)

/-- The quantities `handleMove` computes and applies to a card when a
pointer event fires (script.js lines 294-320): the two rotation angles
in degrees, the glare position custom properties in percent, and the
glare intensity. -/
structure TiltResult where
  rotateX : ℝ
  rotateY : ℝ
  px : ℝ
  py : ℝ
  glare : ℝ

/-- The local `clamp` of `handleMove` (script.js line 301):
`v => Math.max(0, Math.min(1, v))`. -/
noncomputable def clamp (v : ℝ) : ℝ := max 0 (min 1 v)

/-- `handleMove(e)` (script.js lines 294-320), given the pointer's
client coordinates and the card's cached bounding rectangle: normalize
the pointer position over the box, clamp each coordinate to `[0, 1]`,
derive the two rotation angles, the glare position and the glare
intensity.  Real numbers stand in for IEEE doubles. -/
noncomputable def handleMove (clientX clientY left top width height : ℝ) : TiltResult :=
  let x := (clientX - left) / width
  let y := (clientY - top) / height
  let cx := clamp x
  let cy := clamp y
  let rotateY := (cx - 0.5) * 20
  let rotateX := (0.5 - cy) * 20
  let dx := cx - 0.5
  let dy := cy - 0.5
  let dist := Real.sqrt (dx * dx + dy * dy)
  let g := max 0 (min 1 (1 - dist * 1.5))
  { rotateX := rotateX, rotateY := rotateY, px := cx * 100, py := cy * 100, glare := g }

/-- The periodic hero animation (script.js lines 411-442), modelled by
the instants (milliseconds since the script ran) at which it adds the
`hero-animate` class to the hero element: the initial
`setTimeout(playOnce, 220)` fires at 220 ms and the
`setInterval(playOnce, 10000)` fires at every positive multiple of
10000 ms.  The IIFE returns before scheduling anything when the user
prefers reduced motion, and likewise when no hero element matches. -/
def periodicHeroAnimation (prefersReduce heroExists : Bool) (t : ℕ) : Bool :=
  if prefersReduce then false
  else if !heroExists then false
  else decide (t = 220) || (decide (10000 ≤ t) && decide (t % 10000 = 0))

end HelloHealth

namespace HelloHealth

/-! ## Helper lemmas -/

/-- On any failed fetch outcome the dispatcher's effect list is the
fixed failure sequence. -/
theorem fetchSymptoms_eq_of_failed (symptoms : String) (result : FetchResult)
    (h : failed result = true) :
    fetchSymptoms symptoms result =
      [UIOp.addHiddenClass, UIOp.setResultsHTML searchingHTML,
       UIOp.sendRequest (mkRequest symptoms), UIOp.logError,
       UIOp.setResultsHTML errorHTML, UIOp.removeHiddenClass] := by
  rcases result with _ | ⟨status, body⟩
  · rfl
  · rcases body with _ | data
    · unfold fetchSymptoms
      rcases hs : statusOk status <;> simp [hs]
    · unfold fetchSymptoms
      unfold failed at h
      simp only [Option.isNone_some, Bool.or_false, Bool.not_eq_true'] at h
      simp [h]

/-- On a 2xx response with a parseable body the dispatcher's effect
list is the fixed success sequence ending in a render of the parsed
data. -/
theorem fetchSymptoms_eq_of_success (symptoms : String) (status : ℕ) (data : JsonData)
    (h : statusOk status = true) :
    fetchSymptoms symptoms (FetchResult.response status (some data)) =
      [UIOp.addHiddenClass, UIOp.setResultsHTML searchingHTML,
       UIOp.sendRequest (mkRequest symptoms),
       UIOp.setResultsHTML (displayResults data), UIOp.removeHiddenClass] := by
  unfold fetchSymptoms
  simp [h]

/-- Every run of the dispatcher sends exactly the one request built
from its argument, whatever the fetch outcome. -/
theorem requestsOf_fetchSymptoms (symptoms : String) (result : FetchResult) :
    requestsOf (fetchSymptoms symptoms result) = [mkRequest symptoms] := by
  rcases result with _ | ⟨status, body⟩
  · rfl
  · rcases body with _ | data <;> unfold fetchSymptoms <;>
      rcases hs : statusOk status <;> simp [hs, requestsOf]

/-- The confidence interpolation for the example value `0.85`. -/
theorem confidenceText_of_85 : confidenceText (some ((85 : ℚ) / 100)) = "85" := by
  have h : mathRound ((85 : ℚ) / 100 * 100) = 85 := by unfold mathRound; norm_num
  simp only [confidenceText, h]
  decide

end HelloHealth

namespace HelloHealth

/-! ## Claim theorems -/

/-- C1: for every dispatched query, `fetchSymptoms` first hides the
results container and sets the results area to the "Searching..."
placeholder, then sends the request; on any failure (network failure,
non-success status, body failing JSON parse) it replaces the results
area with the fixed markup carrying the user-visible message
"An error occurred. Please try again later." while only logging the
underlying failure; and regardless of outcome the final step reveals
the results container. -/
theorem fetchSymptoms_lifecycle (symptoms : String) (result : FetchResult) (st : UIState) :
    (fetchSymptoms symptoms result).take 3 =
      [UIOp.addHiddenClass, UIOp.setResultsHTML searchingHTML,
       UIOp.sendRequest (mkRequest symptoms)] ∧
    (failed result = true →
      (applyOps st (fetchSymptoms symptoms result)).resultsHTML = errorHTML ∧
      UIOp.logError ∈ fetchSymptoms symptoms result) ∧
    (∃ a b, errorHTML = a ++ "An error occurred. Please try again later." ++ b) ∧
    (fetchSymptoms symptoms result).getLast? = some UIOp.removeHiddenClass ∧
    (applyOps st (fetchSymptoms symptoms result)).containerHidden = false := by
  refine ⟨?_, ?_, ⟨"<div class=\"bg-red-100 text-red-700 p-4 rounded-lg\">", "</div>",
    by decide⟩, ?_, ?_⟩
  · rcases result with _ | ⟨status, _ | data⟩
    · rfl
    · unfold fetchSymptoms; rcases hs : statusOk status <;> simp [hs]
    · unfold fetchSymptoms; rcases hs : statusOk status <;> simp [hs]
  · intro h
    rw [fetchSymptoms_eq_of_failed symptoms result h]
    exact ⟨rfl, by simp⟩
  · rcases result with _ | ⟨status, _ | data⟩
    · rfl
    · unfold fetchSymptoms; rcases hs : statusOk status <;> simp [hs]
    · unfold fetchSymptoms; rcases hs : statusOk status <;> simp [hs]
  · rcases result with _ | ⟨status, _ | data⟩
    · rfl
    · unfold fetchSymptoms; rcases hs : statusOk status <;>
        simp [hs, applyOps, applyOp]
    · unfold fetchSymptoms; rcases hs : statusOk status <;>
        simp [hs, applyOps, applyOp]

/-- Witness for `fetchSymptoms_lifecycle` at the query "Fever", a
network failure, and a state with a visible container. -/
theorem fetchSymptoms_lifecycle_witness :
    (fetchSymptoms "Fever" FetchResult.networkFailure).take 3 =
      [UIOp.addHiddenClass, UIOp.setResultsHTML searchingHTML,
       UIOp.sendRequest (mkRequest "Fever")] ∧
    (applyOps ⟨false, ""⟩ (fetchSymptoms "Fever" FetchResult.networkFailure)).resultsHTML
      = errorHTML ∧
    UIOp.logError ∈ fetchSymptoms "Fever" FetchResult.networkFailure ∧
    (fetchSymptoms "Fever" FetchResult.networkFailure).getLast?
      = some UIOp.removeHiddenClass ∧
    (applyOps ⟨false, ""⟩ (fetchSymptoms "Fever" FetchResult.networkFailure)).containerHidden
      = false := by
  have h := fetchSymptoms_lifecycle "Fever" FetchResult.networkFailure ⟨false, ""⟩
  exact ⟨h.1, (h.2.1 rfl).1, (h.2.1 rfl).2, h.2.2.2.1, h.2.2.2.2⟩

/-- C6: the displayed percentage uses round-half-up semantics at this
magnitude: confidence 0.854 renders as "85" before the percent sign
and 0.855 renders as "86". -/
theorem confidence_rounding :
    confidenceText (some ((854 : ℚ) / 1000)) ++ "%" = "85%" ∧
    confidenceText (some ((855 : ℚ) / 1000)) ++ "%" = "86%" ∧
    mathRound ((854 : ℚ) / 1000 * 100) = 85 ∧
    mathRound ((855 : ℚ) / 1000 * 100) = 86 := by
  have h854 : mathRound ((854 : ℚ) / 1000 * 100) = 85 := by unfold mathRound; norm_num
  have h855 : mathRound ((855 : ℚ) / 1000 * 100) = 86 := by unfold mathRound; norm_num
  refine ⟨?_, ?_, h854, h855⟩
  · simp only [confidenceText, h854]; decide
  · simp only [confidenceText, h855]; decide

/-- C7: clicking the preset tag whose label text is "Fever" sets the
input field's value to "Fever" and, within the same click handler,
issues exactly one request whose body field `symptoms` is "Fever",
aimed at the fixed endpoint. -/
theorem tagClick_fever (result : FetchResult) :
    (tagClick "Fever" result).1 = "Fever" ∧
    requestsOf (tagClick "Fever" result).2 = [mkRequest "Fever"] ∧
    (mkRequest "Fever").symptoms = "Fever" ∧
    (mkRequest "Fever").url = "http://127.0.0.1:8000/check-symptoms" ∧
    (mkRequest "Fever").method = "POST" ∧
    (mkRequest "Fever").contentType = "application/json" := by
  exact ⟨rfl, requestsOf_fetchSymptoms "Fever" result, rfl, rfl, rfl, rfl⟩

/-- C9: when the user prefers reduced motion the periodic hero
animation never adds the `hero-animate` class, at load or at any later
instant, whether or not a hero element exists. -/
theorem periodicHeroAnimation_reducedMotion (heroExists : Bool) (t : ℕ) :
    periodicHeroAnimation true heroExists t = false := rfl

end HelloHealth

namespace HelloHealth

/-- C2 counterexample: a tag whose label text is " Fever " (with
surrounding spaces, a non-empty trimmed input) issues a request whose
`symptoms` body field is the raw label " Fever ", not the trimmed
input "Fever" — the tag handler never trims. -/
theorem tagClick_untrimmed_body :
    requestsOf (tagClick " Fever " FetchResult.networkFailure).2
      = [mkRequest " Fever "] ∧
    jsTrim " Fever " = "Fever" ∧
    mkRequest " Fever " ≠ mkRequest (jsTrim " Fever ") := by
  refine ⟨requestsOf_fetchSymptoms " Fever " FetchResult.networkFailure, by decide, by decide⟩

/-- C2 amended: every trigger issues exactly one POST to the fixed
endpoint http://127.0.0.1:8000/check-symptoms with content type
application/json; the search button sends the trimmed input as the
`symptoms` body field, while a tag click sends the tag's raw label
text, untrimmed. -/
theorem trigger_request_shape (inputValue label : String) (result : FetchResult)
    (h : jsTrim inputValue ≠ "") :
    requestsOf (searchBtnClick inputValue result) = [mkRequest (jsTrim inputValue)] ∧
    requestsOf (tagClick label result).2 = [mkRequest label] ∧
    mkRequest (jsTrim inputValue) =
      { url := "http://127.0.0.1:8000/check-symptoms", method := "POST",
        contentType := "application/json", symptoms := jsTrim inputValue } := by
  refine ⟨?_, requestsOf_fetchSymptoms label result, rfl⟩
  unfold searchBtnClick
  simp only [h, if_true, ne_eq, not_false_iff, if_pos]
  exact requestsOf_fetchSymptoms (jsTrim inputValue) result

/-- Witness for `trigger_request_shape` at input " Fever ", tag label
"Headache" and a network failure. -/
theorem trigger_request_shape_witness :
    jsTrim " Fever " ≠ "" ∧
    requestsOf (searchBtnClick " Fever " FetchResult.networkFailure)
      = [mkRequest (jsTrim " Fever ")] ∧
    requestsOf (tagClick "Headache" FetchResult.networkFailure).2
      = [mkRequest "Headache"] := by
  have h : jsTrim " Fever " ≠ "" := by decide
  have hmain := trigger_request_shape " Fever " "Headache" FetchResult.networkFailure h
  exact ⟨h, hmain.1, hmain.2.1⟩

/-- C3 counterexample: a tag whose label text is whitespace-only
(empty after trimming) still issues a request — the tag handler has no
emptiness guard, so "a request is never sent when the text is empty
after trimming" fails at this entry point. -/
theorem tagClick_whitespace_sends :
    jsTrim "   " = "" ∧
    requestsOf (tagClick "   " FetchResult.networkFailure).2 = [mkRequest "   "] := by
  exact ⟨by decide, requestsOf_fetchSymptoms "   " FetchResult.networkFailure⟩

/-- C3 amended: the search button sends the trimmed text and sends
nothing at all when the text is empty after trimming; a preset tag
sends its raw label text unconditionally — untrimmed, and even when
the label is empty after trimming. -/
theorem entry_point_guards (inputValue label : String) (result : FetchResult) :
    (jsTrim inputValue = "" → searchBtnClick inputValue result = []) ∧
    (jsTrim inputValue ≠ "" →
      requestsOf (searchBtnClick inputValue result) = [mkRequest (jsTrim inputValue)]) ∧
    requestsOf (tagClick label result).2 = [mkRequest label] := by
  refine ⟨?_, ?_, requestsOf_fetchSymptoms label result⟩
  · intro h
    unfold searchBtnClick
    simp [h]
  · intro h
    unfold searchBtnClick
    simp only [h, ne_eq, not_false_iff, if_pos]
    exact requestsOf_fetchSymptoms (jsTrim inputValue) result

/-- Witness for `entry_point_guards` at whitespace-only input "   ",
a typed input " Fever " and the tag label "". -/
theorem entry_point_guards_witness :
    searchBtnClick "   " FetchResult.networkFailure = [] ∧
    requestsOf (searchBtnClick " Fever " FetchResult.networkFailure)
      = [mkRequest (jsTrim " Fever ")] ∧
    requestsOf (tagClick "" FetchResult.networkFailure).2 = [mkRequest ""] := by
  refine ⟨(entry_point_guards "   " "" FetchResult.networkFailure).1 (by decide),
    (entry_point_guards " Fever " "" FetchResult.networkFailure).2.1 (by decide),
    (entry_point_guards "x" "" FetchResult.networkFailure).2.2⟩

end HelloHealth

namespace HelloHealth

/-- The success-path example response from the spec:
`{diagnosis:"Tension Headache", confidence:0.85, recommendation:"Rest and hydrate"}`. -/
def exampleResult : JsonData :=
  ⟨some "Tension Headache", some ((85 : ℚ) / 100), some "Rest and hydrate"⟩

/-- C4 counterexample: a 200 response whose body parses as the JSON
object with all three expected fields absent is not treated as a
failure — the results area ends up holding the rendered template
(containing the texts "undefined" and "NaN%"), not the generic error
markup. -/
theorem missing_fields_rendered :
    (applyOps ⟨true, ""⟩ (fetchSymptoms "Fever"
        (FetchResult.response 200 (some ⟨none, none, none⟩)))).resultsHTML
      = displayResults ⟨none, none, none⟩ ∧
    displayResults ⟨none, none, none⟩ ≠ errorHTML ∧
    "undefined".data <:+: (displayResults ⟨none, none, none⟩).data ∧
    "NaN%".data <:+: (displayResults ⟨none, none, none⟩).data := by
  refine ⟨?_, by decide, by decide, by decide⟩
  rw [fetchSymptoms_eq_of_success "Fever" 200 ⟨none, none, none⟩ rfl]
  rfl

/-- C4 amended: of the 2xx cases, only a body that fails JSON parsing
is treated as a failure (generic error message); a body that parses as
JSON is always handed to the renderer as-is, missing or not, and the
results area ends up holding the rendered template. -/
theorem ok_body_dispatch (symptoms : String) (status : ℕ) (data : JsonData)
    (st : UIState) (h : statusOk status = true) :
    (applyOps st (fetchSymptoms symptoms (FetchResult.response status none))).resultsHTML
      = errorHTML ∧
    (applyOps st (fetchSymptoms symptoms
        (FetchResult.response status (some data)))).resultsHTML
      = displayResults data := by
  constructor
  · rw [fetchSymptoms_eq_of_failed symptoms _ (by simp [failed, h])]
    rfl
  · rw [fetchSymptoms_eq_of_success symptoms status data h]
    rfl

/-- Witness for `ok_body_dispatch` at status 200 and the spec's
example response. -/
theorem ok_body_dispatch_witness :
    statusOk 200 = true ∧
    (applyOps ⟨true, ""⟩ (fetchSymptoms "Fever"
        (FetchResult.response 200 none))).resultsHTML = errorHTML ∧
    (applyOps ⟨true, ""⟩ (fetchSymptoms "Fever"
        (FetchResult.response 200 (some exampleResult)))).resultsHTML
      = displayResults exampleResult := by
  have h := ok_body_dispatch "Fever" 200 exampleResult ⟨true, ""⟩ rfl
  exact ⟨rfl, h.1, h.2⟩

/-- C5: the renderer is a pure function producing exactly the two
blocks in fixed order — diagnosis block first, recommendation block
second — and on the spec's example response the diagnosis block holds
the literal diagnosis string followed by the text "85%", and the
recommendation block holds the recommendation text. -/
theorem displayResults_two_blocks :
    (∀ data, displayResults data =
      "\n            " ++ diagnosisBlock data ++ "\n            \n            "
        ++ recommendationBlock data ++ "\n        ") ∧
    (∃ a b c, diagnosisBlock exampleResult
      = a ++ "Tension Headache" ++ b ++ "85%" ++ c) ∧
    (∃ d e, recommendationBlock exampleResult = d ++ "Rest and hydrate" ++ e) := by
  refine ⟨fun data => rfl, ?_, ?_⟩
  · refine ⟨"<!\x2d\x2d Diagnosis Information Box \x2d\x2d>\n            <div class=\"bg-blue-100 border border-blue-400 text-blue-800 px-4 py-3 rounded-md mb-4\">\n                <!\x2d\x2d Show the AI\x27s diagnosis for the symptoms \x2d\x2d>\n                <p class=\"font-bold\">Possible Diagnosis: ",
      "</p>\n                <!\x2d\x2d Show confidence as percentage (0-100%) \x2d\x2d>\n                <p class=\"text-sm\">Confidence: ",
      "</p>\n            </div>", ?_⟩
    unfold diagnosisBlock exampleResult
    rw [confidenceText_of_85]
    decide
  · refine ⟨"<!\x2d\x2d Recommendations Information Box \x2d\x2d>\n            <div class=\"bg-green-100 border border-green-400 text-green-800 px-4 py-3 rounded-md\">\n                <!\x2d\x2d Header for next steps \x2d\x2d>\n                <p class=\"font-bold\">Next Steps:</p>\n                <!\x2d\x2d Show the recommended action/treatment \x2d\x2d>\n                <p>",
      "</p>\n            </div>", by decide⟩

end HelloHealth

namespace HelloHealth

/-- Clamping fixes values already in the unit interval. -/
theorem clamp_of_mem {v : ℝ} (h0 : 0 ≤ v) (h1 : v ≤ 1) : clamp v = v := by
  unfold clamp
  rw [min_eq_right h1, max_eq_right h0]

/-- The clamped coordinate is nonnegative. -/
theorem clamp_nonneg (v : ℝ) : 0 ≤ clamp v := le_max_left 0 _

/-- The clamped coordinate is at most one. -/
theorem clamp_le_one (v : ℝ) : clamp v ≤ 1 :=
  max_le (by norm_num) (min_le_left 1 v)

/-- C8: for a pointer move on an initialized card, each rotation angle
is the affine map sending the normalized coordinate 0 to the extreme
-10° (resp. +10°) and 1 to the other extreme, and the glare intensity
is 1 minus 1.5 times the distance from center, clamped to `[0, 1]`;
the exact center yields rotation (0°, 0°) and glare 1, and the
top-left corner yields the maximum-magnitude rotations (+10°, -10°)
and clamped-zero glare. -/
theorem handleMove_tilt (left top width height : ℝ)
    (hw : 0 < width) (hh : 0 < height) :
    (∀ clientX clientY,
      0 ≤ (clientX - left) / width → (clientX - left) / width ≤ 1 →
      0 ≤ (clientY - top) / height → (clientY - top) / height ≤ 1 →
      (handleMove clientX clientY left top width height).rotateY
        = -10 + 20 * ((clientX - left) / width) ∧
      (handleMove clientX clientY left top width height).rotateX
        = 10 - 20 * ((clientY - top) / height) ∧
      (handleMove clientX clientY left top width height).glare
        = max 0 (min 1 (1 - 1.5 * Real.sqrt (((clientX - left) / width - 0.5) ^ 2
            + ((clientY - top) / height - 0.5) ^ 2)))) ∧
    handleMove (left + width / 2) (top + height / 2) left top width height
      = ⟨0, 0, 50, 50, 1⟩ ∧
    (handleMove left top left top width height).rotateX = 10 ∧
    (handleMove left top left top width height).rotateY = -10 ∧
    (handleMove left top left top width height).glare = 0 := by
  have hwne : width ≠ 0 := ne_of_gt hw
  have hhne : height ≠ 0 := ne_of_gt hh
  have hch : clamp (1 / 2 : ℝ) = 1 / 2 := clamp_of_mem (by norm_num) (by norm_num)
  have hc0 : clamp (0 : ℝ) = 0 := clamp_of_mem le_rfl (by norm_num)
  refine ⟨?_, ?_, ?_, ?_, ?_⟩
  · intro clientX clientY hx0 hx1 hy0 hy1
    simp only [handleMove, clamp_of_mem hx0 hx1, clamp_of_mem hy0 hy1]
    refine ⟨by ring, by ring, ?_⟩
    rw [show ((clientX - left) / width - 0.5) * ((clientX - left) / width - 0.5)
          + ((clientY - top) / height - 0.5) * ((clientY - top) / height - 0.5)
        = ((clientX - left) / width - 0.5) ^ 2
          + ((clientY - top) / height - 0.5) ^ 2 by ring,
      mul_comm (Real.sqrt _) 1.5]
  · have hxc : (left + width / 2 - left) / width = 1 / 2 := by
      rw [show left + width / 2 - left = width / 2 by ring, div_eq_iff hwne]
      ring
    have hyc : (top + height / 2 - top) / height = 1 / 2 := by
      rw [show top + height / 2 - top = height / 2 by ring, div_eq_iff hhne]
      ring
    simp only [handleMove, hxc, hyc, hch, TiltResult.mk.injEq]
    refine ⟨by norm_num, by norm_num, by norm_num, by norm_num, ?_⟩
    rw [show ((1 : ℝ) / 2 - 0.5) * ((1 : ℝ) / 2 - 0.5)
          + ((1 : ℝ) / 2 - 0.5) * ((1 : ℝ) / 2 - 0.5) = 0 by norm_num,
      Real.sqrt_zero]
    norm_num
  · simp only [handleMove, sub_self, zero_div, hc0]
    norm_num
  · simp only [handleMove, sub_self, zero_div, hc0]
    norm_num
  · simp only [handleMove, sub_self, zero_div, hc0]
    have harg : ((0 : ℝ) - 0.5) * ((0 : ℝ) - 0.5) + ((0 : ℝ) - 0.5) * ((0 : ℝ) - 0.5)
        = 1 / 2 := by norm_num
    rw [harg]
    have h23 : (2 / 3 : ℝ) ≤ Real.sqrt (1 / 2) := by
      rw [show (2 / 3 : ℝ) = Real.sqrt ((2 / 3) ^ 2) from
        (Real.sqrt_sq (by norm_num)).symm]
      exact Real.sqrt_le_sqrt (by norm_num)
    have hneg : 1 - Real.sqrt (1 / 2) * 1.5 ≤ 0 := by nlinarith
    exact max_eq_left (le_trans (min_le_right 1 _) hneg)

/-- Witness for `handleMove_tilt` on the unit-square card at the
origin with width and height 2: the center pointer (1, 1) yields zero
rotation and full glare, and the corner pointer (0, 0) yields the
extreme rotations and zero glare. -/
theorem handleMove_tilt_witness :
    handleMove 1 1 0 0 2 2 = ⟨0, 0, 50, 50, 1⟩ ∧
    (handleMove 0 0 0 0 2 2).rotateX = 10 ∧
    (handleMove 0 0 0 0 2 2).rotateY = -10 ∧
    (handleMove 0 0 0 0 2 2).glare = 0 := by
  have h := handleMove_tilt 0 0 2 2 (by norm_num) (by norm_num)
  refine ⟨?_, h.2.2.1, h.2.2.2.1, h.2.2.2.2⟩
  have hc := h.2.1
  norm_num at hc ⊢
  exact hc

/-- C10: for arbitrary pointer coordinates — including positions
outside the card's bounding box, as during `touchmove` — the applied
rotations stay within [-10°, +10°] and the glare stays within [0, 1],
because the normalized coordinates are clamped to `[0, 1]` before any
computation. -/
theorem handleMove_bounded (clientX clientY left top width height : ℝ) :
    -10 ≤ (handleMove clientX clientY left top width height).rotateX ∧
    (handleMove clientX clientY left top width height).rotateX ≤ 10 ∧
    -10 ≤ (handleMove clientX clientY left top width height).rotateY ∧
    (handleMove clientX clientY left top width height).rotateY ≤ 10 ∧
    0 ≤ (handleMove clientX clientY left top width height).glare ∧
    (handleMove clientX clientY left top width height).glare ≤ 1 := by
  have hx0 := clamp_nonneg ((clientX - left) / width)
  have hx1 := clamp_le_one ((clientX - left) / width)
  have hy0 := clamp_nonneg ((clientY - top) / height)
  have hy1 := clamp_le_one ((clientY - top) / height)
  simp only [handleMove]
  refine ⟨by nlinarith, by nlinarith, by nlinarith, by nlinarith,
    le_max_left 0 _, max_le (by norm_num) (min_le_left 1 _)⟩

end HelloHealth
